import Mathlib

/-!
# Verification of the burrow `CallContext` transaction-execution context

Shallow embedding of `src/execution/contexts/call_context.go`: the three-phase
execution protocol (`Precheck`, `Check`, `Deliver`) that applies a single
`CallTx` to account state.  Machine integers (`uint64`) are modelled as `Nat`
with explicit wrapping modulo `2 ^ 64` where the Go code can overflow.  The
account store is an association list keyed by address; the virtual machine is
an opaque function parameter, as the spec treats it
(`Call(state, caller, callee, code, input, value, gas) -> (output, exception)`).
-/

set_option autoImplicit false

/-- Account addresses (`crypto.Address`, 20 bytes) are modelled as naturals. -/
abbrev Address : Type := Nat

/-- `2 ^ 64`, the modulus of Go's `uint64` arithmetic. -/
def WORD64 : Nat := 2 ^ 64

/-- Go `uint64` subtraction `a - b`: wraps modulo `2 ^ 64`.  For canonical
inputs (`a < 2 ^ 64`) this is `(a - b) mod 2 ^ 64` in the wrapping sense. -/
def sub64 (a b : Nat) : Nat := (a + WORD64 - b % WORD64) % WORD64

/-- `acm.Account`: address, balance (`uint64`), sequence (`uint64`), EVM code
and the two permission bits this execution context consults. -/
structure Account where
  address : Address
  balance : Nat
  sequence : Nat
  code : List Nat
  canCreateContract : Bool
  canCall : Bool
deriving Repr, DecidableEq

/-- The account store (`state.ReaderWriter`) as an association list of
accounts keyed by their `address` field. -/
abbrev Store : Type := List Account

/-- `StateWriter.GetAccount`: first account in the store with the given
address, if any. -/
def Store.getAccount (st : Store) (a : Address) : Option Account :=
  st.find? (fun acc => acc.address == a)

/-- `StateWriter.UpdateAccount`: replace the entry keyed by the account's
address, or append it if absent. -/
def Store.updateAccount : Store → Account → Store
  | [], acc => [acc]
  | b :: rest, acc =>
    if b.address == acc.address then acc :: rest
    else b :: Store.updateAccount rest acc

/-- `payload.TxInput`: sending address and declared input amount. -/
structure TxInput where
  address : Address
  amount : Nat
deriving Repr, DecidableEq

/-- `payload.CallTx`: input, optional callee address (`none` requests contract
creation), payload data, fee and gas limit. -/
structure CallTx where
  input : TxInput
  address : Option Address
  data : List Nat
  fee : Nat
  gasLimit : Nat
deriving Repr, DecidableEq

/-- Error codes of `execution/errors` used by this context, plus an opaque
code family for exceptions originating inside the VM. -/
inductive ErrCode where
  | invalidAddress
  | insufficientFunds
  | reservedAddress (a : Address)
  | noCreateContractPermission (a : Address)
  | noCallPermission (a : Address)
  | vmError (n : Nat)
deriving Repr, DecidableEq

/-- `errors.Exception`: a coded error with a message
(`errors.ErrorCodef(code, format, ...)`). -/
structure Exc where
  errorCode : ErrCode
  message : String
deriving Repr, DecidableEq

/-- `exec.TxExecution`, the receipt accumulator: pushed errors, touched-address
events (`Input`), and the final return value with gas consumed (`Return`). -/
structure TxExecution where
  errors : List Exc
  events : List (Address × Option Exc)
  result : Option (List Nat × Nat)
deriving Repr, DecidableEq

/-- `TxExecution.PushError`: append an exception to the receipt. -/
def TxExecution.pushError (txe : TxExecution) (e : Exc) : TxExecution :=
  { txe with errors := txe.errors ++ [e] }

/-- `TxExecution.Input`: append a touched-address event carrying the
exception-or-nil. -/
def TxExecution.inputEvent (txe : TxExecution) (a : Address) (e : Option Exc) :
    TxExecution :=
  { txe with events := txe.events ++ [(a, e)] }

/-- Modelled from the spec: the receipt carries "a textual execution trace"
(`TxExecution.Trace`); the renderer lives in the external `exec` package and is
not among the provided sources, so it is modelled as a deterministic rendering
of the receipt's accumulated error messages. -/
def TxExecution.trace (txe : TxExecution) : String :=
  String.intercalate "; " (txe.errors.map (fun e => e.message))

/-- `TxExecution.Return`: record the return bytes and the gas consumed. -/
def TxExecution.withReturn (txe : TxExecution) (ret : List Nat) (gasUsed : Nat) :
    TxExecution :=
  { txe with result := some (ret, gasUsed) }

/-- The overlay `txCache` (`evm.NewState(ctx.StateWriter)`): pending writes
over a base store snapshot. -/
structure Overlay where
  base : Store
  writes : Store
deriving Repr, DecidableEq

/-- Overlay read: pending write wins, otherwise fall through to the base. -/
def Overlay.getAccount (ov : Overlay) (a : Address) : Option Account :=
  match Store.getAccount ov.writes a with
  | some acc => some acc
  | none => Store.getAccount ov.base a

/-- Overlay write. -/
def Overlay.updateAccount (ov : Overlay) (acc : Account) : Overlay :=
  { ov with writes := Store.updateAccount ov.writes acc }

/-- `txCache.IncSequence`: increment (wrapping `uint64`) the sequence of the
account at `a`; a no-op on an address with no account (unreachable in the
execution flow, where the caller was persisted by `Precheck`). -/
def Overlay.incSequence (ov : Overlay) (a : Address) : Overlay :=
  match ov.getAccount a with
  | some acc => ov.updateAccount { acc with sequence := (acc.sequence + 1) % WORD64 }
  | none => ov

/-- `txCache.GetSequence`. -/
def Overlay.getSequence (ov : Overlay) (a : Address) : Nat :=
  match ov.getAccount a with
  | some acc => acc.sequence
  | none => 0

/-- `txCache.CreateAccount`: register a fresh zeroed account at `a`. -/
def Overlay.createAccount (ov : Overlay) (a : Address) : Overlay :=
  ov.updateAccount
    { address := a, balance := 0, sequence := 0, code := [],
      canCreateContract := false, canCall := false }

/-- `txCache.GetCode`: code of the account at `a`, empty when absent. -/
def Overlay.getCode (ov : Overlay) (a : Address) : List Nat :=
  match ov.getAccount a with
  | some acc => acc.code
  | none => []

/-- `txCache.InitCode`: set the code of the account at `a`. -/
def Overlay.initCode (ov : Overlay) (a : Address) (code : List Nat) : Overlay :=
  match ov.getAccount a with
  | some acc => ov.updateAccount { acc with code := code }
  | none => ov

/-- `txCache.Sync`: flush the pending writes into the base store. -/
def Overlay.sync (ov : Overlay) : Store :=
  List.foldl Store.updateAccount ov.base ov.writes

/-- Result of one opaque VM invocation `vmach.Call(...)`: return bytes, the
optional exception, the remaining gas (Go passes `&gas`), and the possibly
mutated overlay and receipt. -/
structure VMOut where
  ret : List Nat
  exception : Option Exc
  gasRemaining : Nat
  cache : Overlay
  txe : TxExecution
deriving Repr, DecidableEq

/-- The opaque virtual machine, as the spec's external interface:
`VM.Call(overlay, receipt, caller, callee, code, input, value, gas)`. -/
abbrev VMFn : Type :=
  Overlay → TxExecution → Address → Address → List Nat → List Nat → Nat → Nat → VMOut

/-- Modelled from the spec: `PermissionChecker.HasCreateContract(account)`
(`hasCreateContractPermission`; the permission-evaluation source is not among
the provided files, only its boolean result is used). -/
def hasCreateContractPermission (acc : Account) : Bool := acc.canCreateContract

/-- Modelled from the spec: `PermissionChecker.HasCall(account)`
(`hasCallPermission`). -/
def hasCallPermission (acc : Account) : Bool := acc.canCall

/-- Modelled from the spec: `crypto.NewContractAddress(caller, sequence)`, "a
pure deterministic function of (caller address, caller's post-increment
sequence number) ... collision-resistant and ... never randomized".  The
crypto package is not among the provided sources; the derivation is modelled
as an injective pairing of the caller with the (`uint64`) sequence. -/
def newContractAddress (caller : Address) (sequence : Nat) : Address :=
  caller * WORD64 + sequence % WORD64

/-- The hardcoded contract address `1F1D5E1BE37653A107437A496E62AB6C974606BD`
of the anomalous second VM invocation in `Deliver`. -/
def erc20Address : Address := 0x1F1D5E1BE37653A107437A496E62AB6C974606BD

/-- The hardcoded call data
`678135FF0000000000000000000000000000000000000000000000000000000000000001`
assigned to `ctx.tx.Data` in `Deliver`. -/
def debugCallData : List Nat := [0x67, 0x81, 0x35, 0xFF] ++ List.replicate 31 0 ++ [1]

/-- `CallContext.Precheck` (lines 54-110): fetch the input account, validate
amount against fee, tentatively deduct the fee, check permissions (and, for
calls, the native-contract reservation), fetch the callee, and persist the
fee-deducted input account.  Returns the Go function's result paired with the
resulting store; every error path returns before `UpdateAccount`, so it pairs
the error with the untouched store. -/
def precheck (isNative : Address → Bool) (st : Store) (tx : CallTx) :
    Except ErrCode (Account × Option Account) × Store :=
  match Store.getAccount st tx.input.address with
  | none => (.error .invalidAddress, st)
  | some inAcc0 =>
    if tx.input.amount < tx.fee then
      (.error .insufficientFunds, st)
    else
      let inAcc := { inAcc0 with balance := sub64 inAcc0.balance tx.fee }
      match tx.address with
      | none =>
        if hasCreateContractPermission inAcc then
          (.ok (inAcc, none), Store.updateAccount st inAcc)
        else
          (.error (.noCreateContractPermission tx.input.address), st)
      | some calleeAddr =>
        if hasCallPermission inAcc then
          if isNative calleeAddr then
            (.error (.reservedAddress calleeAddr), st)
          else
            (.ok (inAcc, Store.getAccount st calleeAddr), Store.updateAccount st inAcc)
        else
          (.error (.noCallPermission tx.input.address), st)

/-- `CallContext.Check` (lines 112-133), the mempool path: deduct `value` from
the already-fee-deducted input account, increment its sequence when the
transaction requests contract creation, and persist it.  No VM, no receipt. -/
def check (st : Store) (tx : CallTx) (inAcc : Account) (value : Nat) : Store :=
  let acc1 := { inAcc with balance := sub64 inAcc.balance value }
  let acc2 :=
    if tx.address.isNone then
      { acc1 with sequence := (acc1.sequence + 1) % WORD64 }
    else acc1
  Store.updateAccount st acc2

/-- `CallContext.CallEvents` (lines 247-253): touched-address events for the
sender and, when present, the receiver, each carrying the exception-or-nil. -/
def callEvents (tx : CallTx) (txe : TxExecution) (e : Option Exc) : TxExecution :=
  let txe1 := txe.inputEvent tx.input.address e
  match tx.address with
  | some a => txe1.inputEvent a e
  | none => txe1

/-- `CallContext.Deliver` from the VM invocation onwards (lines 197-244),
common to the creation and the existing-contract branches: the real VM call,
then the anomalous debug block (reassignment of `ctx.tx.Data` to
`debugCallData` and a second VM call against the code found at `erc20Address`,
sharing the `gas` variable), then the exception/success split, `CallEvents`,
and `Return(ret, gasLimit - gas)`. -/
def deliverRun (vm : VMFn) (st : Store) (txe : TxExecution) (tx : CallTx)
    (caller callee : Address) (code : List Nat) (txCache : Overlay) (value : Nat) :
    Except ErrCode (Store × TxExecution × CallTx) :=
  let gas := tx.gasLimit
  let o1 := vm txCache txe caller callee code tx.data value gas
  let codeERC20 := o1.cache.getCode erc20Address
  let tx' := { tx with data := debugCallData }
  let o2 := vm o1.cache o1.txe caller callee codeERC20 tx'.data value o1.gasRemaining
  match o1.exception with
  | some exc =>
    let txe1 := o2.txe.pushError
      { errorCode := exc.errorCode,
        message := "call error: " ++ exc.message ++ "\ntrace: " ++ o2.txe.trace }
    let txe2 := callEvents tx' txe1 (some exc)
    .ok (st, txe2.withReturn o1.ret (sub64 tx'.gasLimit o2.gasRemaining), tx')
  | none =>
    let cache1 := if tx'.address.isNone then o2.cache.initCode callee o1.ret else o2.cache
    let st' := cache1.sync
    let txe1 := callEvents tx' o2.txe none
    .ok (st', txe1.withReturn o1.ret (sub64 tx'.gasLimit o2.gasRemaining), tx')

/-- The receipt exception recorded by `Deliver` when a call targets a missing
(`outAcc = none`) or codeless account (lines 172-185). -/
def codelessException (a : Address) (outAcc : Option Account) : Exc :=
  match outAcc with
  | none =>
    { errorCode := .invalidAddress,
      message := "CallTx to an address (" ++ toString a ++ ") that does not exist" }
  | some _ =>
    { errorCode := .invalidAddress,
      message := "CallTx to an address (" ++ toString a ++ ") that holds no code" }

/-- `CallContext.Deliver` (lines 135-245): dispatch between contract creation
(derive the callee from the caller's post-increment sequence, code = payload)
and calling an existing contract (missing/codeless target records an
`InvalidAddress` receipt exception and returns nil), then run the VM via
`deliverRun`. -/
def deliver (vm : VMFn) (st : Store) (txe : TxExecution) (tx : CallTx)
    (inAcc : Account) (outAcc : Option Account) (value : Nat) :
    Except ErrCode (Store × TxExecution × CallTx) :=
  let caller := inAcc.address
  let txCache : Overlay := { base := st, writes := [] }
  match tx.address with
  | none =>
    let txCache1 := txCache.incSequence caller
    let callee := newContractAddress caller (txCache1.getSequence caller)
    let code := tx.data
    let txCache2 := txCache1.createAccount callee
    deliverRun vm st txe tx caller callee code txCache2 value
  | some calleeAddr =>
    match outAcc with
    | none =>
      let exc := codelessException calleeAddr none
      let txe1 := txe.pushError exc
      .ok (st, callEvents tx txe1 (some exc), tx)
    | some out =>
      if out.code = [] then
        let exc := codelessException calleeAddr (some out)
        let txe1 := txe.pushError exc
        .ok (st, callEvents tx txe1 (some exc), tx)
      else
        deliverRun vm st txe tx caller out.address (txCache.getCode out.address) txCache value

/-- `CallContext.Execute` (lines 34-52): run `Precheck`; on success compute
`value = amount - fee` and dispatch to `Deliver` (`RunCall = true`) or `Check`
(`RunCall = false`, receipt untouched). -/
def execute (vm : VMFn) (isNative : Address → Bool) (runCall : Bool)
    (st : Store) (txe : TxExecution) (tx : CallTx) :
    Except ErrCode (Store × TxExecution × CallTx) :=
  match precheck isNative st tx with
  | (.error e, _) => .error e
  | (.ok (inAcc, outAcc), st1) =>
    let value := sub64 tx.input.amount tx.fee
    if runCall then
      deliver vm st1 txe tx inAcc outAcc value
    else
      .ok (check st1 tx inAcc value, txe, tx)

/-! ## Concrete fixtures -/

/-- A caller account holding both permissions. -/
def c1Caller : Account :=
  { address := 1, balance := 100, sequence := 0, code := [],
    canCreateContract := true, canCall := true }

/-- A callee account holding one byte of code. -/
def c1Callee : Account :=
  { address := 2, balance := 0, sequence := 0, code := [96],
    canCreateContract := false, canCall := false }

/-- A two-account store: the caller and a contract account. -/
def c1Store : Store := [c1Caller, c1Callee]

/-- A call transaction: amount 20, fee 5, gas limit 5000, payload `[1,2,3]`,
targeting the contract account. -/
def c1Tx : CallTx :=
  { input := { address := 1, amount := 20 }, address := some 2,
    data := [1, 2, 3], fee := 5, gasLimit := 5000 }

/-- A VM instance that succeeds without touching overlay or receipt,
consuming 1000 gas when run on the contract account's code `[96]` and 7 gas
on any other code (in particular on the code found at `erc20Address` by the
anomalous second invocation). -/
def c1VM : VMFn := fun cache txe _caller _callee code _input _value gas =>
  { ret := [0], exception := none,
    gasRemaining := if code = [96] then gas - 1000 else gas - 7,
    cache := cache, txe := txe }

/-- The empty receipt a transaction's execution starts from. -/
def emptyTxe : TxExecution := { errors := [], events := [], result := none }

/-- A VM instance that always raises an exception, leaving overlay, receipt
and gas untouched. -/
def c2VM : VMFn := fun cache txe _caller _callee _code _input _value gas =>
  { ret := [], exception := some { errorCode := .vmError 11, message := "revert" },
    gasRemaining := gas, cache := cache, txe := txe }

/-! ## Claim theorems -/

/-- C1: the claim says the gas consumed recorded into the receipt equals the
transaction's gas limit minus the gas remaining as returned by the VM's call.
The code violates this: the anomalous debug block runs a second VM invocation
sharing the `gas` variable, so `Return(ret, gasLimit - gas)` records the gas
of both calls.  Here the real call on code `[96]` consumes 1000 of the 5000
gas limit (remaining 4000, so the claim demands 1000), the debug call
consumes another 7, and the receipt records 1007. -/
theorem c1_receipt_gas_includes_debug_call_gas :
  ∃ st' txe' tx',
    execute c1VM (fun _ => false) true c1Store emptyTxe c1Tx = .ok (st', txe', tx') ∧
    txe'.result = some ([0], 1007) ∧
    sub64 c1Tx.gasLimit
      (c1VM { base := c1Store, writes := [] } emptyTxe 1 2 [96] c1Tx.data 15
        c1Tx.gasLimit).gasRemaining = 1000 ∧
    (1007 : Nat) ≠ (1000 : Nat) := by
  refine ⟨_, _, _, rfl, rfl, by decide, by decide⟩

/-- C4: the claim says no field of the transaction is modified by Precheck,
Check, or Deliver.  The code violates this: `Deliver` overwrites
`ctx.tx.Data` with the hardcoded bytes `678135FF...01` before its second
(debug) VM invocation, so the transaction emerging from a delivered call has
`data = debugCallData` instead of its submitted payload. -/
theorem c4_deliver_overwrites_tx_data :
  ∃ st' txe' tx',
    execute c1VM (fun _ => false) true c1Store emptyTxe c1Tx = .ok (st', txe', tx') ∧
    tx'.data = debugCallData ∧ c1Tx.data = [1, 2, 3] ∧ tx'.data ≠ c1Tx.data := by
  refine ⟨_, _, _, rfl, by decide, by decide, by decide⟩

/-- C9: a transaction whose input address has no account in the store makes
`Precheck` fail with `InvalidAddress`, and the store is returned untouched
(no `UpdateAccount` occurred). -/
theorem c9_precheck_missing_input_account (isNative : Address → Bool)
    (st : Store) (tx : CallTx)
    (h : Store.getAccount st tx.input.address = none) :
    precheck isNative st tx = (.error .invalidAddress, st) := by
  simp [precheck, h]

/-- Witness for C9: the empty store holds no account for the input address. -/
theorem c9_witness :
    Store.getAccount [] c1Tx.input.address = none ∧
    precheck (fun _ => false) [] c1Tx = (.error .invalidAddress, []) :=
  ⟨rfl, c9_precheck_missing_input_account (fun _ => false) [] c1Tx rfl⟩

/-- C8: a transaction whose declared fee exceeds its declared input amount
makes `Precheck` fail with `InsufficientFunds`, with the store returned
untouched, provided the input account exists (a missing input account fails
earlier, with `InvalidAddress` — see C9). -/
theorem c8_precheck_insufficient_funds (isNative : Address → Bool)
    (st : Store) (tx : CallTx) (acc : Account)
    (hacc : Store.getAccount st tx.input.address = some acc)
    (hfee : tx.input.amount < tx.fee) :
    precheck isNative st tx = (.error .insufficientFunds, st) := by
  simp [precheck, hacc, hfee]

/-- Witness for C8: fee 5 exceeds amount 3 on an existing account. -/
theorem c8_witness :
    ({ c1Tx with input := { address := 1, amount := 3 } } : CallTx).input.amount <
      ({ c1Tx with input := { address := 1, amount := 3 } } : CallTx).fee ∧
    precheck (fun _ => false) c1Store
      { c1Tx with input := { address := 1, amount := 3 } } =
      (.error .insufficientFunds, c1Store) :=
  ⟨by decide,
    c8_precheck_insufficient_funds (fun _ => false) c1Store
      { c1Tx with input := { address := 1, amount := 3 } } c1Caller rfl (by decide)⟩

/-- C10: every `Precheck` failure — missing input account, insufficient
funds, missing CreateContract or Call permission, or a call targeting a
registered native contract — returns before the fee-deducted input account is
persisted, so the store component of the result is exactly the input store. -/
theorem c10_precheck_error_leaves_store_untouched (isNative : Address → Bool)
    (st : Store) (tx : CallTx) (e : ErrCode)
    (h : (precheck isNative st tx).1 = .error e) :
    (precheck isNative st tx).2 = st := by
  unfold precheck at h ⊢
  rcases hg : Store.getAccount st tx.input.address with _ | acc <;>
    simp only [hg] at h ⊢
  by_cases hf : tx.input.amount < tx.fee
  · simp [hf]
  · simp only [hf, if_false, ite_false] at h ⊢
    rcases ha : tx.address with _ | calleeAddr <;> simp only [ha] at h ⊢
    · by_cases hp :
        hasCreateContractPermission { acc with balance := sub64 acc.balance tx.fee } = true
      · simp [hp] at h
      · simp [hp]
    · by_cases hp :
        hasCallPermission { acc with balance := sub64 acc.balance tx.fee } = true
      · by_cases hn : isNative calleeAddr = true
        · simp [hp, hn]
        · simp [hp, hn] at h
      · simp [hp]

/-- Witness for C10: a call by an account without the Call permission fails,
and the store comes back untouched. -/
theorem c10_witness :
    (precheck (fun _ => false) [c1Callee]
        { c1Tx with input := { address := 2, amount := 20 } }).1 =
      .error (.noCallPermission 2) ∧
    (precheck (fun _ => false) [c1Callee]
        { c1Tx with input := { address := 2, amount := 20 } }).2 = [c1Callee] :=
  ⟨rfl,
    c10_precheck_error_leaves_store_untouched (fun _ => false) [c1Callee]
      { c1Tx with input := { address := 2, amount := 20 } }
      (.noCallPermission 2) rfl⟩

/-- An input account holding less balance (2) than the transaction fee (5),
but with the Call permission. -/
def c5Acc : Account :=
  { address := 3, balance := 2, sequence := 0, code := [],
    canCreateContract := false, canCall := true }

/-- A store holding only `c5Acc`. -/
def c5Store : Store := [c5Acc]

/-- A call transaction from `c5Acc`: amount 10, fee 5 — so `amount >= fee`
holds, but the account's balance 2 does not cover the fee. -/
def c5Tx : CallTx :=
  { input := { address := 3, amount := 10 }, address := some 2,
    data := [], fee := 5, gasLimit := 100 }

/-- C5: `Precheck` never compares the input account's balance to the fee.
With balance 2, fee 5 and amount 10 it succeeds, and the account it persists
carries `2 - 5` wrapped modulo `2 ^ 64`, i.e. `2 ^ 64 - 3`.  The same
unchecked unsigned subtraction of `value` occurs in `Check`: an account with
balance 1 checked with value 5 is persisted with balance `2 ^ 64 - 4`. -/
theorem c5_unchecked_subtraction_wraps :
    c5Acc.balance < c5Tx.fee ∧ c5Tx.fee ≤ c5Tx.input.amount ∧
    precheck (fun _ => false) c5Store c5Tx =
      (.ok ({ c5Acc with balance := 18446744073709551613 }, none),
        Store.updateAccount c5Store { c5Acc with balance := 18446744073709551613 }) ∧
    Store.getAccount (check c5Store c5Tx { c5Acc with balance := 1 } 5) 3 =
      some { c5Acc with balance := 18446744073709551612 } := by
  refine ⟨by decide, by decide, rfl, rfl⟩

/-- C2: in a Deliver that reaches the VM (`deliverRun` is `Deliver` from the
VM invocation onwards, shared by the creation and the call branches), if the
VM's call returns an exception then the overlay is never synced — the store
comes back exactly as given, so persisted balances are unchanged beyond the
fee `Precheck` already charged — the exception augmented with the execution
trace is pushed onto the receipt, touched-address events fire, and the result
is `.ok` (Deliver returns nil, not a hard error).  The two VM-call equation
hypotheses name the results of the real call and of the anomalous debug call. -/
theorem c2_vm_exception_discards_overlay (vm : VMFn) (st : Store)
    (txe : TxExecution) (tx : CallTx) (caller callee : Address)
    (code : List Nat) (cache : Overlay) (value : Nat)
    (o1 o2 : VMOut) (exc : Exc)
    (h1 : vm cache txe caller callee code tx.data value tx.gasLimit = o1)
    (hexc : o1.exception = some exc)
    (h2 : vm o1.cache o1.txe caller callee (o1.cache.getCode erc20Address)
        debugCallData value o1.gasRemaining = o2) :
    deliverRun vm st txe tx caller callee code cache value =
      .ok (st,
        (callEvents { tx with data := debugCallData }
          (o2.txe.pushError
            { errorCode := exc.errorCode,
              message := "call error: " ++ exc.message ++ "\ntrace: " ++ o2.txe.trace })
          (some exc)).withReturn o1.ret (sub64 tx.gasLimit o2.gasRemaining),
        { tx with data := debugCallData }) := by
  simp only [deliverRun, h1, h2, hexc]

/-- Witness for C2: the always-raising VM `c2VM` run on the two-account store
leaves the store untouched and yields the augmented exception. -/
theorem c2_witness :
    deliverRun c2VM c1Store emptyTxe c1Tx 1 2 [96]
        { base := c1Store, writes := [] } 15 =
      .ok (c1Store,
        { errors := [{ errorCode := .vmError 11,
                       message := "call error: revert\ntrace: " }],
          events := [(1, some { errorCode := .vmError 11, message := "revert" }),
                     (2, some { errorCode := .vmError 11, message := "revert" })],
          result := some ([], 0) },
        { input := { address := 1, amount := 20 }, address := some 2,
          data := debugCallData, fee := 5, gasLimit := 5000 }) :=
  c2_vm_exception_discards_overlay c2VM c1Store emptyTxe c1Tx 1 2 [96]
    { base := c1Store, writes := [] } 15 _ _ _ rfl rfl rfl

/-- C3: a call transaction delivered against a target that does not exist
(`outAcc = none`) or holds no code: the store comes back exactly as given
(the fee charged by Precheck stands, no value moves), an `InvalidAddress`
exception is recorded into the receipt, touched-address events fire for
sender and receiver (`callEvents` emits both, the callee being present), and
Deliver returns `.ok` (no hard error). -/
theorem c3_call_missing_or_codeless_target (vm : VMFn) (st : Store)
    (txe : TxExecution) (tx : CallTx) (inAcc : Account)
    (outAcc : Option Account) (value : Nat) (a : Address)
    (ha : tx.address = some a)
    (hout : outAcc = none ∨ ∃ out, outAcc = some out ∧ out.code = []) :
    deliver vm st txe tx inAcc outAcc value =
      .ok (st,
        callEvents tx (txe.pushError (codelessException a outAcc))
          (some (codelessException a outAcc)), tx) ∧
    (codelessException a outAcc).errorCode = ErrCode.invalidAddress := by
  rcases hout with h | ⟨out, h, hc⟩
  · subst h
    exact ⟨by simp [deliver, ha], rfl⟩
  · subst h
    exact ⟨by simp [deliver, ha, hc], rfl⟩

/-- Witness for C3: delivering a call to the absent address 9 records the
`InvalidAddress` exception and returns ok with the store untouched. -/
theorem c3_witness :
    deliver c1VM c1Store emptyTxe { c1Tx with address := some 9 }
        c1Caller none 15 =
      .ok (c1Store,
        callEvents { c1Tx with address := some 9 }
          (emptyTxe.pushError (codelessException 9 none))
          (some (codelessException 9 none)),
        { c1Tx with address := some 9 }) ∧
    (codelessException 9 none).errorCode = ErrCode.invalidAddress :=
  c3_call_missing_or_codeless_target c1VM c1Store emptyTxe
    { c1Tx with address := some 9 } c1Caller none 15 9 rfl (Or.inl rfl)

/-- A VM instance that reports the callee address it was invoked on as its
return value, consuming nothing and touching nothing; used to observe which
callee `Deliver` derives for a contract creation. -/
def probeVM : VMFn := fun cache txe _caller callee _code _input _value gas =>
  { ret := [callee], exception := none, gasRemaining := gas, cache := cache, txe := txe }

/-- A contract-creation transaction (callee absent) from the caller account. -/
def c6Tx : CallTx :=
  { input := { address := 1, amount := 20 }, address := none,
    data := [9], fee := 5, gasLimit := 5000 }

/-- C6: the callee address of a contract creation is `newContractAddress` of
the caller's address and post-increment sequence: a pure function (same
inputs, same address), with distinct (`uint64`) sequences for the same caller
never colliding; and `deliver` on a creation invokes the VM on exactly the
callee `newContractAddress caller ((sequence + 1) % 2 ^ 64)`, observed here
through a VM that returns its callee argument. -/
theorem c6_contract_address_derivation :
    (∀ (c s1 s2 : Nat), s1 = s2 → newContractAddress c s1 = newContractAddress c s2) ∧
    (∀ (c s1 s2 : Nat), s1 < WORD64 → s2 < WORD64 → s1 ≠ s2 →
      newContractAddress c s1 ≠ newContractAddress c s2) ∧
    (∀ (st : Store) (txe : TxExecution) (tx : CallTx) (inAcc : Account)
        (value : Nat) (acc : Account), tx.address = none →
      Store.getAccount st inAcc.address = some acc →
      (deliver probeVM st txe tx inAcc none value).toOption.map
          (fun out => out.2.1.result) =
        some (some ([newContractAddress inAcc.address ((acc.sequence + 1) % WORD64)],
          sub64 tx.gasLimit tx.gasLimit))) := by
  refine ⟨?_, ?_, ?_⟩
  · intro c s1 s2 h
    rw [h]
  · intro c s1 s2 h1 h2 hne heq
    apply hne
    simp only [newContractAddress] at heq
    have h3 := Nat.add_left_cancel heq
    rwa [Nat.mod_eq_of_lt h1, Nat.mod_eq_of_lt h2] at h3
  · intro st txe tx inAcc value acc ha hg
    simp only [Store.getAccount] at hg
    have hp := List.find?_some hg
    have haddr : acc.address = inAcc.address := by simpa using hp
    simp [deliver, ha, deliverRun, probeVM, Overlay.incSequence, Overlay.getSequence,
      Overlay.createAccount, Overlay.getAccount, Overlay.updateAccount, Overlay.getCode,
      Overlay.initCode, Store.getAccount, Store.updateAccount, hg, haddr,
      callEvents, TxExecution.inputEvent, TxExecution.withReturn, Except.toOption,
      List.find?]

/-- Witness for C6: determinism and distinctness at concrete sequences, and
the creation delivery from the caller account derives
`newContractAddress 1 1`. -/
theorem c6_witness :
    newContractAddress 7 5 = newContractAddress 7 5 ∧
    newContractAddress 7 5 ≠ newContractAddress 7 6 ∧
    (deliver probeVM c1Store emptyTxe c6Tx c1Caller none 0).toOption.map
        (fun out => out.2.1.result) =
      some (some ([newContractAddress 1 ((c1Caller.sequence + 1) % WORD64)],
        sub64 c6Tx.gasLimit c6Tx.gasLimit)) :=
  ⟨c6_contract_address_derivation.1 7 5 5 rfl,
    c6_contract_address_derivation.2.1 7 5 6 (by decide) (by decide) (by decide),
    c6_contract_address_derivation.2.2 c1Store emptyTxe c6Tx c1Caller 0 c1Caller
      rfl rfl⟩

/-- The caller account after `Precheck` deducted the fee 5 from `c1Tx`. -/
def c7InAcc : Account := { c1Caller with balance := 95 }

/-- The store `Precheck` persists for `c1Tx`: fee-deducted caller, callee. -/
def c7St1 : Store := [c7InAcc, c1Callee]

/-- C7: the mempool path (`RunCall = false`).  Whenever `Precheck` succeeds,
`Execute` returns the store `Check` computes with the receipt exactly as it
came in (no receipt events), its outcome does not depend on the VM at all
(any two VMs give the same result — the VM is never invoked), and `Check`
persists the input account with `value = amount - fee` deducted and the
sequence incremented exactly when the transaction creates a contract. -/
theorem c7_check_path_no_vm_no_events (vm vm' : VMFn) (isNative : Address → Bool)
    (st : Store) (txe : TxExecution) (tx : CallTx)
    (inAcc : Account) (outAcc : Option Account) (st1 : Store)
    (h : precheck isNative st tx = (.ok (inAcc, outAcc), st1)) :
    execute vm isNative false st txe tx =
      .ok (check st1 tx inAcc (sub64 tx.input.amount tx.fee), txe, tx) ∧
    execute vm isNative false st txe tx = execute vm' isNative false st txe tx ∧
    check st1 tx inAcc (sub64 tx.input.amount tx.fee) =
      Store.updateAccount st1
        (if tx.address.isNone then
          { inAcc with
              balance := sub64 inAcc.balance (sub64 tx.input.amount tx.fee),
              sequence := (inAcc.sequence + 1) % WORD64 }
         else
          { inAcc with
              balance := sub64 inAcc.balance (sub64 tx.input.amount tx.fee) }) := by
  refine ⟨?_, ?_, ?_⟩
  · simp [execute, h]
  · simp [execute, h]
  · by_cases ha : tx.address.isNone <;> simp [check, ha]

/-- Witness for C7: checking `c1Tx` (a call, so no sequence increment)
deducts value 15 from the fee-deducted caller, independently of the VM. -/
theorem c7_witness :
    execute c1VM (fun _ => false) false c1Store emptyTxe c1Tx =
      .ok (check c7St1 c1Tx c7InAcc (sub64 c1Tx.input.amount c1Tx.fee),
        emptyTxe, c1Tx) ∧
    execute c1VM (fun _ => false) false c1Store emptyTxe c1Tx =
      execute c2VM (fun _ => false) false c1Store emptyTxe c1Tx ∧
    check c7St1 c1Tx c7InAcc (sub64 c1Tx.input.amount c1Tx.fee) =
      Store.updateAccount c7St1
        (if c1Tx.address.isNone then
          { c7InAcc with
              balance := sub64 c7InAcc.balance (sub64 c1Tx.input.amount c1Tx.fee),
              sequence := (c7InAcc.sequence + 1) % WORD64 }
         else
          { c7InAcc with
              balance := sub64 c7InAcc.balance (sub64 c1Tx.input.amount c1Tx.fee) }) :=
  c7_check_path_no_vm_no_events c1VM c2VM (fun _ => false) c1Store emptyTxe c1Tx
    c7InAcc (some c1Callee) c7St1 rfl
